import Mathlib

/-!
Shallow embedding of the video performance scoring and drop-off significance
engine of `src/analyzer.ts` (vidalytics-analytics).  JavaScript numbers are
modelled as exact rationals (`ℚ`); `Math.round` is `⌊x + 1/2⌋`; JS
`Array.prototype.sort` (a stable sort) is modelled by `List.insertionSort`,
which is stable for a total comparator.
-/

namespace Vidalytics

/-- Five-level qualitative performance rating, `PerformanceRating` of the
repository (the string union "excellent"|"good"|"average"|"poor"|"critical"). -/
inductive PerformanceRating where
  | excellent
  | good
  | average
  | poor
  | critical
deriving DecidableEq

/-- Timeline segment of a drop-off interval (the string union
"early"|"mid-early"|"mid-late"|"late" of the repository). -/
inductive Segment where
  | early
  | midEarly
  | midLate
  | late
deriving DecidableEq

/-- Modelled from the spec: `types.ts` is not among the sources, so the field
set follows spec §3 and the construction in `vidalytics.ts` (`getDropOff`):
one sampled second of a retention curve. -/
structure DropOffPoint where
  second : ℚ
  formattedTime : String
  viewers : ℚ
  percentRemaining : ℚ
  dropFromPrevious : ℚ
deriving DecidableEq, Inhabited

/-- Modelled from the spec: `types.ts` is not among the sources; per spec §3
a drop-off curve is a video id, the viewer count at the first sample, and the
ordered sample points. -/
structure DropOffData where
  videoId : String
  totalViewers : ℚ
  points : List DropOffPoint
deriving DecidableEq

/-- Modelled from the spec: `types.ts` is not among the sources; field set per
spec §3 and the record built in `findSignificantDrops`. -/
structure SignificantDrop where
  second : ℚ
  formattedTime : String
  dropPercentage : ℚ
  relativeDrop : ℚ
  viewersBefore : ℚ
  viewersAfter : ℚ
  severity : PerformanceRating
  segment : Segment
deriving DecidableEq

/-- Modelled from the spec: `types.ts` is not among the sources; field set per
spec §3 and the mapping in `vidalytics.ts` (`getVideoStats`).  The two opt-in
metrics are optional.  Field defaults are only a convenience for writing
concrete examples. -/
structure VideoStats where
  videoId : String := ""
  plays : ℚ := 0
  playsUnique : ℚ := 0
  playRate : ℚ := 0
  uniquePlayRate : ℚ := 0
  engagement : ℚ := 0
  impressions : ℚ := 0
  conversionCount : ℚ := 0
  conversionRate : ℚ := 0
  revenue : ℚ := 0
  revenueAverage : ℚ := 0
  revenuePerViewer : ℚ := 0
  unmuteRate : ℚ := 0
  unmuteCount : ℚ := 0
  pgOptInRate : Option ℚ := none
  pgEventsCount : Option ℚ := none
deriving DecidableEq

/-- Modelled from the spec: `types.ts` is not among the sources; field set per
the mapping in `vidalytics.ts` (`listVideos`).  The analyzer reads only `id`
and `title`. -/
structure Video where
  id : String := ""
  title : String := ""
  dateCreated : String := ""
  lastPublished : String := ""
  status : String := ""
  views : ℚ := 0
  folderId : String := ""
  thumbnailUrl : String := ""
  videoUrl : String := ""
deriving DecidableEq

/-- A raw metric value paired with its qualitative bucket (`MetricRating`). -/
structure MetricRating where
  value : ℚ
  rating : PerformanceRating
deriving DecidableEq

/-- Recommendation type union "critical"|"warning"|"suggestion"|"positive". -/
inductive RecType where
  | critical
  | warning
  | suggestion
  | positive
deriving DecidableEq

/-- One synthesized finding (`Recommendation`). -/
structure Recommendation where
  type : RecType
  metric : String
  title : String
  detail : String
  actionableStep : String
deriving DecidableEq

/-- The four per-metric ratings inside a `VideoAnalysis`. -/
structure VideoMetricRatings where
  playRate : MetricRating
  engagement : MetricRating
  conversionRate : MetricRating
  unmuteRate : MetricRating
deriving DecidableEq

/-- Aggregate analysis of one video (`VideoAnalysis`). -/
structure VideoAnalysis where
  videoId : String
  videoName : String
  overallScore : ℤ
  overallRating : PerformanceRating
  metrics : VideoMetricRatings
  significantDrops : List SignificantDrop
  recommendations : List Recommendation
deriving DecidableEq

/-- A ranked `{videoId, videoName, score}` entry of a `PortfolioSummary`. -/
structure ScoredVideo where
  videoId : String
  videoName : String
  score : ℤ
deriving DecidableEq

/-- Totals and averages across a video set (`PortfolioSummary`). -/
structure PortfolioSummary where
  totalVideos : ℕ
  totalPlays : ℚ
  totalConversions : ℚ
  totalRevenue : ℚ
  avgEngagement : ℚ
  avgConversionRate : ℚ
  avgPlayRate : ℚ
  avgUnmuteRate : ℚ
  topPerformers : List ScoredVideo
  worstPerformers : List ScoredVideo
  portfolioRecommendations : List Recommendation
deriving DecidableEq

/-- JavaScript `Math.round`, i.e. `⌊x + 1/2⌋` (ties round toward `+∞`). -/
def jsRound (q : ℚ) : ℤ := ⌊q + 1 / 2⌋

/-- Rounding to one decimal place, `Math.round(x * 10) / 10` in the source. -/
def round1 (q : ℚ) : ℚ := (jsRound (q * 10) : ℚ) / 10

/-- Left-pads a digit string with zeros up to length `n`. -/
def padZeros (s : String) (n : ℕ) : String :=
  String.mk (List.replicate (n - s.length) '0') ++ s

/-- JavaScript `Number.prototype.toFixed` on a nonnegative rational:
the integer `n` closest to `x·10^f` (ties toward the larger `n`), rendered
with `f` digits after the decimal point. -/
def jsToFixedNN (x : ℚ) (f : ℕ) : String :=
  let n := (⌊x * 10 ^ f + 1 / 2⌋).toNat
  if f = 0 then Nat.repr n
  else Nat.repr (n / 10 ^ f) ++ "." ++ padZeros (Nat.repr (n % 10 ^ f)) f

/-- JavaScript `Number.prototype.toFixed`: a negative argument is rendered by
prefixing "-" to the rendering of its negation (ECMA-262 Number.toFixed). -/
def jsToFixed (x : ℚ) (f : ℕ) : String :=
  if x < 0 then "-" ++ jsToFixedNN (-x) f else jsToFixedNN x f

/-- Smallest exponent `f ≤ 17` with `a · 10^f` integral, when one exists. -/
def decExp (a : ℚ) : Option ℕ :=
  (List.range 18).find? (fun f => (a * 10 ^ f).den = 1)

/-- JavaScript number-to-string conversion as used in template literals,
exact for decimals terminating within 17 places (every value interpolated by
the analyzer is such a decimal); a non-terminating rational falls back to
fraction notation. -/
def jsNumRepr (q : ℚ) : String :=
  let sign := if q < 0 then "-" else ""
  let a := |q|
  match decExp a with
  | some f =>
    let n := (a * 10 ^ f).num.toNat
    if f = 0 then sign ++ Nat.repr n
    else sign ++ Nat.repr (n / 10 ^ f) ++ "." ++ padZeros (Nat.repr (n % 10 ^ f)) f
  | none => sign ++ Nat.repr a.num.toNat ++ "/" ++ Nat.repr a.den

/-- The four ascending per-metric thresholds (rows of `THRESHOLDS`). -/
structure Thresholds where
  excellent : ℚ
  good : ℚ
  average : ℚ
  poor : ℚ
deriving DecidableEq

/-- The string-keyed threshold table `THRESHOLDS` of `analyzer.ts`.
`playRate`, `engagement`, `conversionRate` and `unmuteRate` are 0-1 ratios. -/
def THRESHOLDS (metric : String) : Option Thresholds :=
  if metric = "playRate" then some ⟨7/10, 5/10, 3/10, 15/100⟩
  else if metric = "engagement" then some ⟨6/10, 4/10, 25/100, 15/100⟩
  else if metric = "conversionRate" then some ⟨5/100, 3/100, 15/1000, 5/1000⟩
  else if metric = "unmuteRate" then some ⟨6/10, 4/10, 25/100, 1/10⟩
  else none

/-- Weights for the composite score (`WEIGHTS` of `analyzer.ts`). -/
structure Weights where
  engagement : ℚ
  conversionRate : ℚ
  playRate : ℚ
  unmuteRate : ℚ
deriving DecidableEq

/-- Composite weights: engagement 0.35, conversionRate 0.25, playRate 0.2,
unmuteRate 0.2. -/
def WEIGHTS : Weights := ⟨35/100, 25/100, 2/10, 2/10⟩

/-- Embedding of `rateMetric` of `analyzer.ts`: buckets a metric value against its
thresholds; an unknown metric rates as `average`. -/
def rateMetric (metric : String) (value : ℚ) : PerformanceRating :=
  match THRESHOLDS metric with
  | none => .average
  | some t =>
    if t.excellent ≤ value then .excellent
    else if t.good ≤ value then .good
    else if t.average ≤ value then .average
    else if t.poor ≤ value then .poor
    else .critical

/-- Embedding of `metricRating` of `analyzer.ts`. -/
def metricRating (metric : String) (value : ℚ) : MetricRating :=
  { value := value, rating := rateMetric metric value }

/-- Body of `normalizeToScore` once the threshold row is known: piecewise
linear interpolation onto the 20-point bands. -/
def bandScore (t : Thresholds) (value : ℚ) : ℚ :=
  if t.excellent ≤ value then min 100 (80 + (value - t.excellent) / t.excellent * 20)
  else if t.good ≤ value then 60 + (value - t.good) / (t.excellent - t.good) * 20
  else if t.average ≤ value then 40 + (value - t.average) / (t.good - t.average) * 20
  else if t.poor ≤ value then 20 + (value - t.poor) / (t.average - t.poor) * 20
  else max 0 (value / t.poor * 20)

/-- Embedding of `normalizeToScore` of `analyzer.ts`: maps a metric value to a 0-100
sub-score; an unknown metric scores 50. -/
def normalizeToScore (metric : String) (value : ℚ) : ℚ :=
  match THRESHOLDS metric with
  | none => 50
  | some t => bandScore t value

/-- Embedding of `calculateScore` of `analyzer.ts`: weighted composite of the four
sub-scores, rounded to an integer. -/
def calculateScore (stats : VideoStats) : ℤ :=
  jsRound (normalizeToScore "engagement" stats.engagement * WEIGHTS.engagement
    + normalizeToScore "conversionRate" stats.conversionRate * WEIGHTS.conversionRate
    + normalizeToScore "playRate" stats.playRate * WEIGHTS.playRate
    + normalizeToScore "unmuteRate" stats.unmuteRate * WEIGHTS.unmuteRate)

/-- Embedding of `ratingFromScore` of `analyzer.ts`. -/
def ratingFromScore (score : ℤ) : PerformanceRating :=
  if 80 ≤ score then .excellent
  else if 60 ≤ score then .good
  else if 40 ≤ score then .average
  else if 20 ≤ score then .poor
  else .critical

/-- Embedding of `getSegment` of `findSignificantDrops`: first quartile interval of
`[0, lastSecond]` containing `second` (checked in listed order), defaulting
to `late`. -/
def getSegment (lastSecond second : ℚ) : Segment :=
  if 0 ≤ second ∧ second < lastSecond * (1/4) then .early
  else if lastSecond * (1/4) ≤ second ∧ second < lastSecond * (2/4) then .midEarly
  else if lastSecond * (2/4) ≤ second ∧ second < lastSecond * (3/4) then .midLate
  else if lastSecond * (3/4) ≤ second ∧ second < lastSecond + 1 then .late
  else .late

/-- The guarded relative drop of an interval:
`before.viewers > 0 ? (drop / before.viewers) * 100 : 0`. -/
def relDropOf (drop beforeViewers : ℚ) : ℚ :=
  if 0 < beforeViewers then drop / beforeViewers * 100 else 0

/-- The guarded drop as a percentage of total viewers:
`totalViewers > 0 ? (drop / totalViewers) * 100 : 0`. -/
def dropPctOf (drop totalViewers : ℚ) : ℚ :=
  if 0 < totalViewers then drop / totalViewers * 100 else 0

/-- One entry of the internal `allDrops` array of `findSignificantDrops`
(the consecutive pair of points replaces the index `idx` of the source). -/
structure RawDrop where
  before : DropOffPoint
  after : DropOffPoint
  drop : ℚ
  relativeDrop : ℚ
  dropPct : ℚ
  segment : Segment
deriving DecidableEq

/-- Builds the `allDrops` entry for one consecutive pair of points. -/
def mkRawDrop (totalViewers lastSecond : ℚ) (b a : DropOffPoint) : RawDrop :=
  { before := b
    after := a
    drop := b.viewers - a.viewers
    relativeDrop := relDropOf (b.viewers - a.viewers) b.viewers
    dropPct := dropPctOf (b.viewers - a.viewers) totalViewers
    segment := getSegment lastSecond a.second }

/-- Embedding of the `allDrops` loop of `findSignificantDrops`: every consecutive pair of
points with a positive viewer loss (`drop <= 0` intervals are skipped). -/
def rawDrops (totalViewers lastSecond : ℚ) : List DropOffPoint → List RawDrop
  | [] => []
  | [_] => []
  | b :: a :: rest =>
    (if b.viewers - a.viewers ≤ 0 then [] else [mkRawDrop totalViewers lastSecond b a])
      ++ rawDrops totalViewers lastSecond (a :: rest)

/-- Embedding of `avgRelDrop` of `findSignificantDrops`: the mean relative drop over the
positive-drop intervals, 0 when there are none. -/
def avgRelOf (allDrops : List RawDrop) : ℚ :=
  if 0 < allDrops.length then
    allDrops.foldl (fun s d => s + d.relativeDrop) 0 / allDrops.length
  else 0

/-- Severity banding of `findSignificantDrops` on the (unrounded) relative
drop: ≥20 critical, ≥12 poor, ≥7 average, else good. -/
def severityOfRel (relativeDrop : ℚ) : PerformanceRating :=
  if 20 ≤ relativeDrop then .critical
  else if 12 ≤ relativeDrop then .poor
  else if 7 ≤ relativeDrop then .average
  else .good

/-- Populates the output record of one selected drop, rounding the two
percentages to one decimal place. -/
def mkSignificantDrop (d : RawDrop) : SignificantDrop :=
  { second := d.after.second
    formattedTime := d.after.formattedTime
    dropPercentage := round1 d.dropPct
    relativeDrop := round1 d.relativeDrop
    viewersBefore := d.before.viewers
    viewersAfter := d.after.viewers
    severity := severityOfRel d.relativeDrop
    segment := d.segment }

/-- One segment's contribution: its flagged drops sorted descending by
relative drop (stable), capped at `maxPerSegment` = 3, populated. -/
def segmentBlock (significant : List RawDrop) (seg : Segment) : List SignificantDrop :=
  ((List.insertionSort (fun a b : RawDrop => b.relativeDrop ≤ a.relativeDrop)
      (significant.filter (fun d => d.segment = seg))).take 3).map mkSignificantDrop

/-- The selection set before the final chronological re-sort; the segments
are visited in the insertion order of the `bySegment` record. -/
def selectedDrops (significant : List RawDrop) : List SignificantDrop :=
  segmentBlock significant .early ++ segmentBlock significant .midEarly
    ++ segmentBlock significant .midLate ++ segmentBlock significant .late

/-- Embedding of `findSignificantDrops` of `analyzer.ts`. -/
def findSignificantDrops (dropOff : DropOffData) : List SignificantDrop :=
  if dropOff.points.length < 3 then []
  else
    let lastSecond := (dropOff.points.getLastD default).second
    if lastSecond ≤ 0 then []
    else
      let allDrops := rawDrops dropOff.totalViewers lastSecond dropOff.points
      let avgRelDrop := avgRelOf allDrops
      let significant := allDrops.filter (fun d => avgRelDrop * 1.5 < d.relativeDrop)
      List.insertionSort (fun a b : SignificantDrop => a.second ≤ b.second)
        (selectedDrops significant)

/-- The play-rate recommendation for a critical/poor rating. -/
def lowPlayRateRec (stats : VideoStats) (playRating : PerformanceRating) : Recommendation :=
  { type := if playRating = .critical then .critical else .warning
    metric := "playRate"
    title := "Low Play Rate"
    detail := "Only " ++ jsToFixed (stats.playRate * 100) 1 ++ "% of visitors who see this video press play. Most visitors are leaving before the video even starts."
    actionableStep := "Improve the thumbnail image, add a compelling headline above the player, or use an autoplay strategy with a strong visual hook in the first frame." }

/-- The play-rate recommendation for an excellent rating. -/
def strongPlayRateRec (stats : VideoStats) : Recommendation :=
  { type := .positive
    metric := "playRate"
    title := "Strong Play Rate"
    detail := jsToFixed (stats.playRate * 100) 1 ++ "% play rate is excellent. Your thumbnail/page design is compelling visitors to watch."
    actionableStep := "Document what makes this video\x27s presentation effective and replicate the pattern on other videos." }

/-- The engagement recommendation for a critical/poor rating. -/
def lowEngagementRec (stats : VideoStats) (engRating : PerformanceRating) : Recommendation :=
  { type := if engRating = .critical then .critical else .warning
    metric := "engagement"
    title := "Low Viewer Engagement"
    detail := "Viewers watch only " ++ jsToFixed (stats.engagement * 100) 1 ++ "% of the video on average. Most people are dropping off well before your core message or CTA."
    actionableStep := "Front-load your key message. Move your strongest proof, hook, or promise to the first 15-30 seconds. Cut filler and tighten pacing." }

/-- The high-play-rate/low-engagement interaction recommendation. -/
def startsNoStayRec : Recommendation :=
  { type := .warning
    metric := "engagement"
    title := "Viewers Start But Don\x27t Stay"
    detail := "People are clicking play but leaving early. The opening isn\x27t delivering on what the thumbnail/headline promised."
    actionableStep := "Review the first 15-30 seconds. Does the video immediately address what visitors expect? Consider re-scripting the intro to match the page promise." }

/-- The unmute-rate recommendation for a critical/poor rating. -/
def lowUnmuteRec (stats : VideoStats) : Recommendation :=
  { type := .warning
    metric := "unmuteRate"
    title := "Low Unmute Rate"
    detail := "Only " ++ jsToFixed (stats.unmuteRate * 100) 1 ++ "% of viewers unmute. Many may be watching silently or not engaging with audio content."
    actionableStep := "Add bold text overlays, captions, or animated elements in the first 5 seconds that encourage unmuting. Consider adding a visual \x27unmute\x27 prompt." }

/-- The conversion-rate recommendation for a critical/poor rating. -/
def lowConversionRec (stats : VideoStats) : Recommendation :=
  { type := .warning
    metric := "conversionRate"
    title := "Low Conversion Rate"
    detail := jsToFixed (stats.conversionRate * 100) 2 ++ "% conversion rate. Viewers are watching but not taking action."
    actionableStep := "Check CTA placement — is it only at the end? Move it to the point of highest engagement. Strengthen the offer and urgency. Verify the CTA link works correctly." }

/-- The high-engagement/low-conversion interaction recommendation. -/
def engagedNotConvertingRec : Recommendation :=
  { type := .warning
    metric := "conversionRate"
    title := "Engaged Viewers Aren\x27t Converting"
    detail := "People are watching a good portion of your video but not converting. The issue is likely your CTA or offer, not the content."
    actionableStep := "Test moving the CTA earlier. Add urgency or scarcity elements. Make the next step crystal clear. Verify the CTA button/link is prominent and functional." }

/-- The conversion-rate recommendation for an excellent rating. -/
def excellentConversionRec (stats : VideoStats) : Recommendation :=
  { type := .positive
    metric := "conversionRate"
    title := "Excellent Conversion Rate"
    detail := jsToFixed (stats.conversionRate * 100) 2 ++ "% conversion rate is outstanding. This video is highly effective at driving action."
    actionableStep := "Study this video\x27s script structure and CTA placement. Use it as a template for future videos." }

/-- The revenue recommendation (fires whenever revenue is positive). -/
def revenueRec (stats : VideoStats) : Recommendation :=
  { type := .positive
    metric := "revenue"
    title := "Revenue Generating"
    detail := "This video has generated $" ++ jsToFixed stats.revenue 2 ++ " in revenue ($" ++ jsToFixed stats.revenuePerViewer 2 ++ " per viewer, $" ++ jsToFixed stats.revenueAverage 2 ++ " AOV)."
    actionableStep := "Drive more traffic to this video. Consider A/B testing small improvements to increase revenue per viewer." }

/-- The recommendation generated for one significant drop. -/
def dropOffRec (drop : SignificantDrop) : Recommendation :=
  { type := if drop.severity = .critical then .critical else .warning
    metric := "dropOff"
    title := "Major Drop-off at " ++ drop.formattedTime
    detail := jsNumRepr drop.dropPercentage ++ "% of total viewers left at the " ++ drop.formattedTime ++ " mark (" ++ jsNumRepr drop.viewersBefore ++ " → " ++ jsNumRepr drop.viewersAfter ++ " viewers)."
    actionableStep := "Review what happens at this timestamp. Common causes: topic change, energy drop, long-winded explanation, asking for commitment too early, or audio/video quality issues." }

/-- The fixed positive fallback recommendation ("no issues found"). -/
def solidPerformanceRec : Recommendation :=
  { type := .positive
    metric := "overall"
    title := "Solid Performance"
    detail := "This video is performing within acceptable ranges across all tracked metrics."
    actionableStep := "Monitor for changes over time. Consider testing small improvements to push metrics higher." }

/-- Play-rate rule block of `generateRecommendations`. -/
def playRateRecs (stats : VideoStats) : List Recommendation :=
  let playRating := rateMetric "playRate" stats.playRate
  if playRating = .critical ∨ playRating = .poor then [lowPlayRateRec stats playRating]
  else if playRating = .excellent then [strongPlayRateRec stats]
  else []

/-- Engagement rule block of `generateRecommendations`. -/
def engagementRecs (stats : VideoStats) : List Recommendation :=
  let engRating := rateMetric "engagement" stats.engagement
  if engRating = .critical ∨ engRating = .poor then [lowEngagementRec stats engRating]
  else []

/-- High play rate + low engagement interaction block. -/
def interactionRecs (stats : VideoStats) : List Recommendation :=
  let playRating := rateMetric "playRate" stats.playRate
  let engRating := rateMetric "engagement" stats.engagement
  if (playRating = .good ∨ playRating = .excellent)
      ∧ (engRating = .poor ∨ engRating = .critical) then [startsNoStayRec]
  else []

/-- Unmute-rate rule block of `generateRecommendations`. -/
def unmuteRecs (stats : VideoStats) : List Recommendation :=
  let unmuteRating := rateMetric "unmuteRate" stats.unmuteRate
  if unmuteRating = .critical ∨ unmuteRating = .poor then [lowUnmuteRec stats]
  else []

/-- Conversion-rate rule block: entirely guarded by
`conversionCount > 0 || conversionRate > 0`. -/
def conversionRecs (stats : VideoStats) : List Recommendation :=
  let convRating := rateMetric "conversionRate" stats.conversionRate
  let engRating := rateMetric "engagement" stats.engagement
  if 0 < stats.conversionCount ∨ 0 < stats.conversionRate then
    (if convRating = .critical ∨ convRating = .poor then [lowConversionRec stats] else [])
      ++ (if (engRating = .good ∨ engRating = .excellent)
            ∧ (convRating = .poor ∨ convRating = .critical) then [engagedNotConvertingRec]
          else [])
      ++ (if convRating = .excellent then [excellentConversionRec stats] else [])
  else []

/-- Revenue rule block of `generateRecommendations`. -/
def revenueRecs (stats : VideoStats) : List Recommendation :=
  if 0 < stats.revenue then [revenueRec stats] else []

/-- Drop-off rule block: one recommendation for each of the first three
chronological significant drops. -/
def dropOffRecs (drops : List SignificantDrop) : List Recommendation :=
  (drops.take 3).map dropOffRec

/-- All rule blocks of `generateRecommendations` in source order, before the
empty-list fallback. -/
def baseRecommendations (stats : VideoStats) (drops : List SignificantDrop) : List Recommendation :=
  playRateRecs stats ++ engagementRecs stats ++ interactionRecs stats
    ++ unmuteRecs stats ++ conversionRecs stats ++ revenueRecs stats ++ dropOffRecs drops

/-- Embedding of `generateRecommendations` of `analyzer.ts`. -/
def generateRecommendations (stats : VideoStats) (drops : List SignificantDrop) : List Recommendation :=
  let recs := baseRecommendations stats drops
  if recs.length = 0 then [solidPerformanceRec] else recs

/-- Embedding of `analyzeVideo` of `analyzer.ts`. -/
def analyzeVideo (video : Video) (stats : VideoStats) (dropOff : DropOffData) : VideoAnalysis :=
  let score := calculateScore stats
  let drops := findSignificantDrops dropOff
  { videoId := video.id
    videoName := video.title
    overallScore := score
    overallRating := ratingFromScore score
    metrics :=
      { playRate := metricRating "playRate" stats.playRate
        engagement := metricRating "engagement" stats.engagement
        conversionRate := metricRating "conversionRate" stats.conversionRate
        unmuteRate := metricRating "unmuteRate" stats.unmuteRate }
    significantDrops := drops
    recommendations := generateRecommendations stats drops }

/-- The portfolio-wide low-engagement recommendation. -/
def portfolioEngagementRec (avgEngagement : ℚ) : Recommendation :=
  { type := .critical
    metric := "engagement"
    title := "Portfolio-Wide Low Engagement"
    detail := "Average engagement across all videos is " ++ jsToFixed (avgEngagement * 100) 1 ++ "%. Most viewers leave before the midpoint."
    actionableStep := "Review your script structure across all videos. Consider shorter formats, faster pacing, and stronger opening hooks." }

/-- The portfolio-wide low-play-rate recommendation. -/
def portfolioPlayRateRec (avgPlayRate : ℚ) : Recommendation :=
  { type := .warning
    metric := "playRate"
    title := "Low Average Play Rate"
    detail := "Average play rate is " ++ jsToFixed (avgPlayRate * 100) 1 ++ "%. Page visitors aren\x27t starting your videos."
    actionableStep := "Test different thumbnails and page layouts. Ensure the video player is prominent and above the fold. Consider autoplay where appropriate." }

/-- The portfolio revenue summary recommendation. -/
def portfolioRevenueRec (totalRevenue totalConversions : ℚ) (n : ℕ) (top : ScoredVideo) : Recommendation :=
  { type := .positive
    metric := "revenue"
    title := "Revenue Summary"
    detail := "Total revenue: $" ++ jsToFixed totalRevenue 2 ++ " from " ++ jsNumRepr totalConversions ++ " conversions across " ++ Nat.repr n ++ " videos."
    actionableStep := "Focus on driving more traffic to your top performer \"" ++ top.videoName ++ "\" (score: " ++ Int.repr top.score ++ "/100)." }

/-- The portfolio worst-performer recommendation. -/
def portfolioWorstRec (worst : ScoredVideo) : Recommendation :=
  { type := .warning
    metric := "overall"
    title := "Underperforming Videos Need Attention"
    detail := "Your lowest scoring video \"" ++ worst.videoName ++ "\" scores " ++ Int.repr worst.score ++ "/100."
    actionableStep := "Click into the worst performers below to see specific issues and recommended fixes." }

/-- Embedding of `analyzePortfolio` of `analyzer.ts`. -/
def analyzePortfolio (videos : List Video) (allStats : List VideoStats) : PortfolioSummary :=
  let n := allStats.length
  if n = 0 then
    { totalVideos := 0
      totalPlays := 0
      totalConversions := 0
      totalRevenue := 0
      avgEngagement := 0
      avgConversionRate := 0
      avgPlayRate := 0
      avgUnmuteRate := 0
      topPerformers := []
      worstPerformers := []
      portfolioRecommendations := [] }
  else
    let totalPlays := allStats.foldl (fun s v => s + v.plays) 0
    let totalConversions := allStats.foldl (fun s v => s + v.conversionCount) 0
    let totalRevenue := allStats.foldl (fun s v => s + v.revenue) 0
    let avgEngagement := allStats.foldl (fun s v => s + v.engagement) 0 / (n : ℚ)
    let avgConversionRate := allStats.foldl (fun s v => s + v.conversionRate) 0 / (n : ℚ)
    let avgPlayRate := allStats.foldl (fun s v => s + v.playRate) 0 / (n : ℚ)
    let avgUnmuteRate := allStats.foldl (fun s v => s + v.unmuteRate) 0 / (n : ℚ)
    let scored := allStats.map (fun stats =>
      { videoId := stats.videoId
        videoName := match videos.find? (fun v => v.id = stats.videoId) with
          | some v => v.title
          | none => stats.videoId
        score := calculateScore stats : ScoredVideo })
    let sorted := List.insertionSort (fun a b : ScoredVideo => b.score ≤ a.score) scored
    let topPerformers := sorted.take 5
    let worstPerformers := (sorted.drop (sorted.length - 5)).reverse
    let portfolioRecs :=
      (if avgEngagement < 25/100 then [portfolioEngagementRec avgEngagement] else [])
        ++ (if avgPlayRate < 3/10 then [portfolioPlayRateRec avgPlayRate] else [])
        ++ (match topPerformers with
            | top :: _ => if 0 < totalRevenue then
                [portfolioRevenueRec totalRevenue totalConversions n top] else []
            | [] => [])
        ++ (match worstPerformers with
            | worst :: _ => if worst.score < 30 then [portfolioWorstRec worst] else []
            | [] => [])
    { totalVideos := n
      totalPlays := totalPlays
      totalConversions := totalConversions
      totalRevenue := totalRevenue
      avgEngagement := avgEngagement
      avgConversionRate := avgConversionRate
      avgPlayRate := avgPlayRate
      avgUnmuteRate := avgUnmuteRate
      topPerformers := topPerformers
      worstPerformers := worstPerformers
      portfolioRecommendations := portfolioRecs }

/-- JS division, `none` standing for the non-finite result (`Infinity` or
`NaN`) that an unguarded zero denominator would produce. -/
def jsDiv (a b : ℚ) : Option ℚ := if b = 0 then none else some (a / b)

/-- Variant of `relDropOf` with its division replaced by the checked `jsDiv`. -/
def relDropChecked (drop beforeViewers : ℚ) : Option ℚ :=
  if 0 < beforeViewers then (jsDiv drop beforeViewers).map (· * 100) else some 0

/-- Variant of `dropPctOf` with its division replaced by the checked `jsDiv`. -/
def dropPctChecked (drop totalViewers : ℚ) : Option ℚ :=
  if 0 < totalViewers then (jsDiv drop totalViewers).map (· * 100) else some 0

/-- Variant of `avgRelOf` with its division replaced by the checked `jsDiv`. -/
def avgRelChecked (allDrops : List RawDrop) : Option ℚ :=
  if 0 < allDrops.length then
    jsDiv (allDrops.foldl (fun s d => s + d.relativeDrop) 0) allDrops.length
  else some 0

/-- A threshold row is well-formed when its four entries ascend and are
positive; every row of `THRESHOLDS` is. -/
structure Thresholds.Ordered (t : Thresholds) : Prop where
  poor_pos : 0 < t.poor
  poor_lt : t.poor < t.average
  average_lt : t.average < t.good
  good_lt : t.good < t.excellent

theorem THRESHOLDS_ordered (m : String) (t : Thresholds)
    (h : THRESHOLDS m = some t) : t.Ordered := by
  rw [THRESHOLDS] at h
  split_ifs at h
  all_goals cases h
  all_goals exact ⟨by norm_num, by norm_num, by norm_num, by norm_num⟩

theorem bandScore_of_top {t : Thresholds} {v : ℚ} (h : t.excellent ≤ v) :
    bandScore t v = min 100 (80 + (v - t.excellent) / t.excellent * 20) := by
  rw [bandScore, if_pos h]

theorem bandScore_of_band3 {t : Thresholds} {v : ℚ} (h1 : ¬ t.excellent ≤ v)
    (h2 : t.good ≤ v) :
    bandScore t v = 60 + (v - t.good) / (t.excellent - t.good) * 20 := by
  rw [bandScore, if_neg h1, if_pos h2]

theorem bandScore_of_band2 {t : Thresholds} {v : ℚ} (h1 : ¬ t.excellent ≤ v)
    (h2 : ¬ t.good ≤ v) (h3 : t.average ≤ v) :
    bandScore t v = 40 + (v - t.average) / (t.good - t.average) * 20 := by
  rw [bandScore, if_neg h1, if_neg h2, if_pos h3]

theorem bandScore_of_band1 {t : Thresholds} {v : ℚ} (h1 : ¬ t.excellent ≤ v)
    (h2 : ¬ t.good ≤ v) (h3 : ¬ t.average ≤ v) (h4 : t.poor ≤ v) :
    bandScore t v = 20 + (v - t.poor) / (t.average - t.poor) * 20 := by
  rw [bandScore, if_neg h1, if_neg h2, if_neg h3, if_pos h4]

theorem bandScore_of_bottom {t : Thresholds} {v : ℚ} (h1 : ¬ t.excellent ≤ v)
    (h2 : ¬ t.good ≤ v) (h3 : ¬ t.average ≤ v) (h4 : ¬ t.poor ≤ v) :
    bandScore t v = max 0 (v / t.poor * 20) := by
  rw [bandScore, if_neg h1, if_neg h2, if_neg h3, if_neg h4]

theorem bandScore_ge_80 {t : Thresholds} {v : ℚ} (ht : t.Ordered)
    (h : t.excellent ≤ v) : 80 ≤ bandScore t v := by
  have hp := ht.poor_pos; have ha := ht.poor_lt
  have hg := ht.average_lt; have he := ht.good_lt
  rw [bandScore_of_top h]
  refine le_min (by norm_num) ?_
  have : 0 ≤ (v - t.excellent) / t.excellent :=
    div_nonneg (by linarith) (by linarith)
  linarith

theorem bandScore_ge_60 {t : Thresholds} {v : ℚ} (ht : t.Ordered)
    (h : t.good ≤ v) : 60 ≤ bandScore t v := by
  have he := ht.good_lt
  rcases le_or_lt t.excellent v with hev | hev
  · linarith [bandScore_ge_80 ht hev]
  · rw [bandScore_of_band3 (not_le.mpr hev) h]
    have : 0 ≤ (v - t.good) / (t.excellent - t.good) :=
      div_nonneg (by linarith) (by linarith)
    linarith

theorem bandScore_ge_40 {t : Thresholds} {v : ℚ} (ht : t.Ordered)
    (h : t.average ≤ v) : 40 ≤ bandScore t v := by
  have hg := ht.average_lt; have he := ht.good_lt
  rcases le_or_lt t.good v with hgv | hgv
  · linarith [bandScore_ge_60 ht hgv]
  · rcases le_or_lt t.excellent v with hev | hev
    · linarith [bandScore_ge_80 ht hev]
    · rw [bandScore_of_band2 (not_le.mpr hev) (not_le.mpr hgv) h]
      have : 0 ≤ (v - t.average) / (t.good - t.average) :=
        div_nonneg (by linarith) (by linarith)
      linarith

theorem bandScore_ge_20 {t : Thresholds} {v : ℚ} (ht : t.Ordered)
    (h : t.poor ≤ v) : 20 ≤ bandScore t v := by
  have ha := ht.poor_lt; have hg := ht.average_lt; have he := ht.good_lt
  rcases le_or_lt t.average v with hav | hav
  · linarith [bandScore_ge_40 ht hav]
  · rcases le_or_lt t.good v with hgv | hgv
    · linarith [bandScore_ge_60 ht hgv]
    · rcases le_or_lt t.excellent v with hev | hev
      · linarith [bandScore_ge_80 ht hev]
      · rw [bandScore_of_band1 (not_le.mpr hev) (not_le.mpr hgv) (not_le.mpr hav) h]
        have : 0 ≤ (v - t.poor) / (t.average - t.poor) :=
          div_nonneg (by linarith) (by linarith)
        linarith

theorem bandScore_lt_20 {t : Thresholds} {v : ℚ} (ht : t.Ordered)
    (h : v < t.poor) : bandScore t v < 20 := by
  have hp := ht.poor_pos; have ha := ht.poor_lt
  have hg := ht.average_lt; have he := ht.good_lt
  rw [bandScore_of_bottom (by linarith) (by linarith) (by linarith) (not_le.mpr h)]
  have : v / t.poor < 1 := (div_lt_one hp).mpr h
  exact max_lt (by norm_num) (by linarith)

theorem bandScore_lt_40 {t : Thresholds} {v : ℚ} (ht : t.Ordered)
    (h : v < t.average) : bandScore t v < 40 := by
  have ha := ht.poor_lt; have hg := ht.average_lt; have he := ht.good_lt
  rcases le_or_lt t.poor v with hpv | hpv
  · rw [bandScore_of_band1 (by linarith) (by linarith) (not_le.mpr h) hpv]
    have : (v - t.poor) / (t.average - t.poor) < 1 :=
      (div_lt_one (by linarith)).mpr (by linarith)
    linarith
  · linarith [bandScore_lt_20 ht hpv]

theorem bandScore_lt_60 {t : Thresholds} {v : ℚ} (ht : t.Ordered)
    (h : v < t.good) : bandScore t v < 60 := by
  have hg := ht.average_lt; have he := ht.good_lt
  rcases le_or_lt t.average v with hav | hav
  · rw [bandScore_of_band2 (by linarith) (not_le.mpr h) hav]
    have : (v - t.average) / (t.good - t.average) < 1 :=
      (div_lt_one (by linarith)).mpr (by linarith)
    linarith
  · linarith [bandScore_lt_40 ht hav]

theorem bandScore_lt_80 {t : Thresholds} {v : ℚ} (ht : t.Ordered)
    (h : v < t.excellent) : bandScore t v < 80 := by
  have he := ht.good_lt
  rcases le_or_lt t.good v with hgv | hgv
  · rw [bandScore_of_band3 (not_le.mpr h) hgv]
    have : (v - t.good) / (t.excellent - t.good) < 1 :=
      (div_lt_one (by linarith)).mpr (by linarith)
    linarith
  · linarith [bandScore_lt_60 ht hgv]

theorem bandScore_nonneg {t : Thresholds} (ht : t.Ordered) (v : ℚ) :
    0 ≤ bandScore t v := by
  rcases le_or_lt t.poor v with hpv | hpv
  · linarith [bandScore_ge_20 ht hpv]
  · have hp := ht.poor_pos; have ha := ht.poor_lt
    have hg := ht.average_lt; have he := ht.good_lt
    rw [bandScore_of_bottom (by linarith) (by linarith) (by linarith) (not_le.mpr hpv)]
    exact le_max_left 0 _

theorem bandScore_le_100 {t : Thresholds} (ht : t.Ordered) (v : ℚ) :
    bandScore t v ≤ 100 := by
  rcases le_or_lt t.excellent v with hev | hev
  · rw [bandScore_of_top hev]; exact min_le_left _ _
  · linarith [bandScore_lt_80 ht hev]

theorem bandScore_mono {t : Thresholds} (ht : t.Ordered) {v w : ℚ}
    (hvw : v ≤ w) : bandScore t v ≤ bandScore t w := by
  have hp := ht.poor_pos; have ha := ht.poor_lt
  have hg := ht.average_lt; have he := ht.good_lt
  rcases le_or_lt t.excellent v with hev | hev
  · rw [bandScore_of_top hev, bandScore_of_top (le_trans hev hvw)]
    refine min_le_min le_rfl ?_
    have : (v - t.excellent) / t.excellent ≤ (w - t.excellent) / t.excellent :=
      (div_le_div_iff_of_pos_right (by linarith)).mpr (by linarith)
    linarith
  · rcases le_or_lt t.excellent w with hew | hew
    · linarith [bandScore_lt_80 ht hev, bandScore_ge_80 ht hew]
    · rcases le_or_lt t.good v with hgv | hgv
      · rw [bandScore_of_band3 (not_le.mpr hev) hgv,
          bandScore_of_band3 (not_le.mpr hew) (le_trans hgv hvw)]
        have : (v - t.good) / (t.excellent - t.good)
            ≤ (w - t.good) / (t.excellent - t.good) :=
          (div_le_div_iff_of_pos_right (by linarith)).mpr (by linarith)
        linarith
      · rcases le_or_lt t.good w with hgw | hgw
        · linarith [bandScore_lt_60 ht hgv, bandScore_ge_60 ht hgw]
        · rcases le_or_lt t.average v with hav | hav
          · rw [bandScore_of_band2 (not_le.mpr hev) (not_le.mpr hgv) hav,
              bandScore_of_band2 (not_le.mpr hew) (not_le.mpr hgw) (le_trans hav hvw)]
            have : (v - t.average) / (t.good - t.average)
                ≤ (w - t.average) / (t.good - t.average) :=
              (div_le_div_iff_of_pos_right (by linarith)).mpr (by linarith)
            linarith
          · rcases le_or_lt t.average w with haw | haw
            · linarith [bandScore_lt_40 ht hav, bandScore_ge_40 ht haw]
            · rcases le_or_lt t.poor v with hpv | hpv
              · rw [bandScore_of_band1 (not_le.mpr hev) (not_le.mpr hgv)
                    (not_le.mpr hav) hpv,
                  bandScore_of_band1 (not_le.mpr hew) (not_le.mpr hgw)
                    (not_le.mpr haw) (le_trans hpv hvw)]
                have : (v - t.poor) / (t.average - t.poor)
                    ≤ (w - t.poor) / (t.average - t.poor) :=
                  (div_le_div_iff_of_pos_right (by linarith)).mpr (by linarith)
                linarith
              · rcases le_or_lt t.poor w with hpw | hpw
                · linarith [bandScore_lt_20 ht hpv, bandScore_ge_20 ht hpw]
                · rw [bandScore_of_bottom (not_le.mpr hev) (not_le.mpr hgv)
                      (not_le.mpr hav) (not_le.mpr hpv),
                    bandScore_of_bottom (not_le.mpr hew) (not_le.mpr hgw)
                      (not_le.mpr haw) (not_le.mpr hpw)]
                  refine max_le_max le_rfl ?_
                  have : v / t.poor ≤ w / t.poor :=
                    (div_le_div_iff_of_pos_right hp).mpr hvw
                  linarith

theorem bandScore_at_poor {t : Thresholds} (ht : t.Ordered) :
    bandScore t t.poor = 20 := by
  have ha := ht.poor_lt; have hg := ht.average_lt; have he := ht.good_lt
  rw [bandScore_of_band1 (by linarith) (by linarith) (by linarith) le_rfl]
  simp

theorem bandScore_at_average {t : Thresholds} (ht : t.Ordered) :
    bandScore t t.average = 40 := by
  have hg := ht.average_lt; have he := ht.good_lt
  rw [bandScore_of_band2 (by linarith) (by linarith) le_rfl]
  simp

theorem bandScore_at_good {t : Thresholds} (ht : t.Ordered) :
    bandScore t t.good = 60 := by
  have he := ht.good_lt
  rw [bandScore_of_band3 (by linarith) le_rfl]
  simp

theorem bandScore_at_excellent {t : Thresholds} (_ht : t.Ordered) :
    bandScore t t.excellent = 80 := by
  rw [bandScore_of_top le_rfl]
  simp
  norm_num

/-- Sub-scores are always within `[0, 100]`, whatever the metric name. -/
theorem normalizeToScore_bounds (m : String) (v : ℚ) :
    0 ≤ normalizeToScore m v ∧ normalizeToScore m v ≤ 100 := by
  match h : THRESHOLDS m with
  | none => simp [normalizeToScore, h]; norm_num
  | some t =>
    have ht := THRESHOLDS_ordered m t h
    simp only [normalizeToScore, h]
    exact ⟨bandScore_nonneg ht v, bandScore_le_100 ht v⟩

/-- The threshold row of the `playRate` metric. -/
theorem thresholds_playRate :
    THRESHOLDS "playRate" = some ⟨7/10, 5/10, 3/10, 15/100⟩ := by
  rw [THRESHOLDS, if_pos rfl]

/-- The threshold row of the `engagement` metric. -/
theorem thresholds_engagement :
    THRESHOLDS "engagement" = some ⟨6/10, 4/10, 25/100, 15/100⟩ := by
  rw [THRESHOLDS, if_neg (by decide), if_pos rfl]

/-- The threshold row of the `conversionRate` metric. -/
theorem thresholds_conversionRate :
    THRESHOLDS "conversionRate" = some ⟨5/100, 3/100, 15/1000, 5/1000⟩ := by
  rw [THRESHOLDS, if_neg (by decide), if_neg (by decide), if_pos rfl]

/-- The threshold row of the `unmuteRate` metric. -/
theorem thresholds_unmuteRate :
    THRESHOLDS "unmuteRate" = some ⟨6/10, 4/10, 25/100, 1/10⟩ := by
  rw [THRESHOLDS, if_neg (by decide), if_neg (by decide), if_neg (by decide),
    if_pos rfl]

/-- C2: for each tracked metric (exactly the metrics having a threshold row)
the continuous score is monotonically non-decreasing in the value, bounded to
`[0, 100]`, and maps a value equal to a threshold to the exact band-boundary
score (poor 20, average 40, good 60, excellent 80); in particular the
engagement score at 0.6 is 80. -/
theorem normalizeToScore_spec :
    (THRESHOLDS "playRate").isSome ∧ (THRESHOLDS "engagement").isSome ∧
    (THRESHOLDS "conversionRate").isSome ∧ (THRESHOLDS "unmuteRate").isSome ∧
    (∀ m t, THRESHOLDS m = some t →
      (∀ v w : ℚ, v ≤ w → normalizeToScore m v ≤ normalizeToScore m w) ∧
      (∀ v : ℚ, 0 ≤ normalizeToScore m v ∧ normalizeToScore m v ≤ 100) ∧
      normalizeToScore m t.poor = 20 ∧ normalizeToScore m t.average = 40 ∧
      normalizeToScore m t.good = 60 ∧ normalizeToScore m t.excellent = 80) ∧
    normalizeToScore "engagement" (6/10) = 80 := by
  refine ⟨by rw [thresholds_playRate]; rfl, by rw [thresholds_engagement]; rfl,
    by rw [thresholds_conversionRate]; rfl, by rw [thresholds_unmuteRate]; rfl,
    ?_, ?_⟩
  · intro m t h
    have ht := THRESHOLDS_ordered m t h
    simp only [normalizeToScore, h]
    exact ⟨fun v w hvw => bandScore_mono ht hvw,
      fun v => ⟨bandScore_nonneg ht v, bandScore_le_100 ht v⟩,
      bandScore_at_poor ht, bandScore_at_average ht, bandScore_at_good ht,
      bandScore_at_excellent ht⟩
  · simp only [normalizeToScore, thresholds_engagement]
    exact bandScore_at_excellent (THRESHOLDS_ordered _ _ thresholds_engagement)

/-- Witness for C2 at the engagement metric and the concrete pair 0 ≤ 1. -/
theorem normalizeToScore_spec_witness :
    normalizeToScore "engagement" 0 ≤ normalizeToScore "engagement" 1 ∧
    normalizeToScore "engagement" (6/10) = 80 :=
  ⟨(normalizeToScore_spec.2.2.2.2.1 "engagement" ⟨6/10, 4/10, 25/100, 15/100⟩
      thresholds_engagement).1 0 1 zero_le_one,
   normalizeToScore_spec.2.2.2.2.2⟩

/-- The drop-off curve of the spec example scenario:
points (0,100), (10,98), (20,40), (30,38) with 100 total viewers. -/
def exampleDropOff : DropOffData :=
  { videoId := "vid-1"
    totalViewers := 100
    points :=
      [ { second := 0, formattedTime := "0:00", viewers := 100,
          percentRemaining := 100, dropFromPrevious := 0 }
      , { second := 10, formattedTime := "0:10", viewers := 98,
          percentRemaining := 98, dropFromPrevious := 100/49 }
      , { second := 20, formattedTime := "0:20", viewers := 40,
          percentRemaining := 40, dropFromPrevious := 2900/49 }
      , { second := 30, formattedTime := "0:30", viewers := 38,
          percentRemaining := 38, dropFromPrevious := 5 } ] }

/-- The single significant drop the detector reports on the example
scenario. -/
def exampleSignificantDrop : SignificantDrop :=
  { second := 20, formattedTime := "0:20", dropPercentage := 58,
    relativeDrop := 296/5, viewersBefore := 98, viewersAfter := 40,
    severity := .critical, segment := .midLate }

theorem findSignificantDrops_exampleDropOff :
    findSignificantDrops exampleDropOff = [exampleSignificantDrop] := by
  have h1 : round1 (2900/49) = 296/5 := by
    have hf : ⌊(2900/49 : ℚ) * 10 + 1/2⌋ = 592 := by
      rw [Int.floor_eq_iff] ; norm_num
    rw [round1, jsRound, hf]; norm_num
  have h2 : round1 (58 : ℚ) = 58 := by
    have hf : ⌊(58 : ℚ) * 10 + 1/2⌋ = 580 := by
      rw [Int.floor_eq_iff] ; norm_num
    rw [round1, jsRound, hf]; norm_num
  norm_num [findSignificantDrops, exampleDropOff, exampleSignificantDrop,
    List.getLastD, rawDrops, mkRawDrop, relDropOf, dropPctOf, getSegment,
    avgRelOf, segmentBlock, selectedDrops, mkSignificantDrop, severityOfRel,
    h1, h2]

/-- C1: on the example scenario the detector returns exactly one significant
drop, at second 20, with relative drop 59.2 (rounded), severity critical and
segment mid-late (the quartile of lastSecond 30 containing second 20). -/
theorem findSignificantDrops_example :
    findSignificantDrops exampleDropOff =
      [{ second := 20, formattedTime := "0:20", dropPercentage := 58,
         relativeDrop := 59.2, viewersBefore := 98, viewersAfter := 40,
         severity := .critical, segment := .midLate }] := by
  rw [findSignificantDrops_exampleDropOff]
  norm_num [exampleSignificantDrop]

/-- C4: fewer than three points, or a non-positive last-sample second, yields
the empty drop list. -/
theorem findSignificantDrops_degenerate :
    ∀ d : DropOffData,
      d.points.length < 3 ∨ (d.points.getLastD default).second ≤ 0 →
      findSignificantDrops d = [] := by
  intro d h
  simp only [findSignificantDrops]
  split_ifs with h1 h2
  · rfl
  · rfl
  · rcases h with h | h
    · exact absurd h h1
    · exact absurd h h2

/-- A two-point curve, for the C4 witness. -/
def twoPointDropOff : DropOffData :=
  { videoId := "vid-2"
    totalViewers := 10
    points :=
      [ { second := 0, formattedTime := "0:00", viewers := 10,
          percentRemaining := 100, dropFromPrevious := 0 }
      , { second := 10, formattedTime := "0:10", viewers := 5,
          percentRemaining := 50, dropFromPrevious := 50 } ] }

/-- Witness for C4 on the two-point curve. -/
theorem findSignificantDrops_degenerate_witness :
    findSignificantDrops twoPointDropOff = [] :=
  findSignificantDrops_degenerate twoPointDropOff (Or.inl (by decide))

/-- `Math.round` stays within `[0, 100]` on arguments within `[0, 100]`. -/
theorem jsRound_bounds {x : ℚ} (h0 : 0 ≤ x) (h1 : x ≤ 100) :
    0 ≤ jsRound x ∧ jsRound x ≤ 100 := by
  constructor
  · rw [jsRound]
    exact Int.le_floor.mpr (by push_cast; linarith)
  · rw [jsRound]
    have h2 : (⌊x + 1/2⌋ : ℤ) < 101 := Int.floor_lt.mpr (by push_cast; linarith)
    omega

/-- C8: the four composite weights sum to 1; the composite score is an
integer in `[0, 100]` for every input; and an input with every tracked metric
at its excellent threshold scores at least 80. -/
theorem calculateScore_spec :
    WEIGHTS.engagement + WEIGHTS.conversionRate + WEIGHTS.playRate
        + WEIGHTS.unmuteRate = 1 ∧
    (∀ stats : VideoStats, 0 ≤ calculateScore stats ∧ calculateScore stats ≤ 100) ∧
    (∀ stats : VideoStats,
      stats.engagement = 6/10 → stats.conversionRate = 5/100 →
      stats.playRate = 7/10 → stats.unmuteRate = 6/10 →
      80 ≤ calculateScore stats) := by
  refine ⟨by norm_num [WEIGHTS], ?_, ?_⟩
  · intro stats
    obtain ⟨e0, e1⟩ := normalizeToScore_bounds "engagement" stats.engagement
    obtain ⟨c0, c1⟩ := normalizeToScore_bounds "conversionRate" stats.conversionRate
    obtain ⟨p0, p1⟩ := normalizeToScore_bounds "playRate" stats.playRate
    obtain ⟨u0, u1⟩ := normalizeToScore_bounds "unmuteRate" stats.unmuteRate
    rw [calculateScore]
    apply jsRound_bounds
    · simp only [WEIGHTS]; linarith
    · simp only [WEIGHTS]; linarith
  · intro stats h1 h2 h3 h4
    have e1 : normalizeToScore "engagement" ((6:ℚ)/10) = 80 := by
      simp only [normalizeToScore, thresholds_engagement]
      exact bandScore_at_excellent (THRESHOLDS_ordered _ _ thresholds_engagement)
    have e2 : normalizeToScore "conversionRate" ((5:ℚ)/100) = 80 := by
      simp only [normalizeToScore, thresholds_conversionRate]
      exact bandScore_at_excellent (THRESHOLDS_ordered _ _ thresholds_conversionRate)
    have e3 : normalizeToScore "playRate" ((7:ℚ)/10) = 80 := by
      simp only [normalizeToScore, thresholds_playRate]
      exact bandScore_at_excellent (THRESHOLDS_ordered _ _ thresholds_playRate)
    have e4 : normalizeToScore "unmuteRate" ((6:ℚ)/10) = 80 := by
      simp only [normalizeToScore, thresholds_unmuteRate]
      exact bandScore_at_excellent (THRESHOLDS_ordered _ _ thresholds_unmuteRate)
    rw [calculateScore, h1, h2, h3, h4, e1, e2, e3, e4]
    have hsum : (80:ℚ) * WEIGHTS.engagement + 80 * WEIGHTS.conversionRate
        + 80 * WEIGHTS.playRate + 80 * WEIGHTS.unmuteRate = 80 := by
      norm_num [WEIGHTS]
    rw [hsum, jsRound]
    have hf : ⌊(80:ℚ) + 1/2⌋ = 80 := by
      rw [Int.floor_eq_iff] ; norm_num
    omega

/-- Stats with every tracked metric at its excellent threshold, for the C8
witness. -/
def excellentStats : VideoStats :=
  { engagement := 6/10, conversionRate := 5/100, playRate := 7/10, unmuteRate := 6/10 }

/-- Witness for C8 at the all-excellent stats. -/
theorem calculateScore_spec_witness : 80 ≤ calculateScore excellentStats :=
  calculateScore_spec.2.2 excellentStats rfl rfl rfl rfl

theorem round1_zero : round1 0 = 0 := by
  have hf : ⌊(0:ℚ) * 10 + 1/2⌋ = 0 := by
    rw [Int.floor_eq_iff] ; norm_num
  rw [round1, jsRound, hf]
  norm_num

theorem segmentBlock_length_le (sig : List RawDrop) (seg : Segment) :
    (segmentBlock sig seg).length ≤ 3 := by
  rw [segmentBlock, List.length_map, List.length_take]
  exact min_le_left _ _

theorem mem_segmentBlock {sig : List RawDrop} {seg : Segment} {s : SignificantDrop}
    (h : s ∈ segmentBlock sig seg) :
    ∃ rd ∈ sig, rd.segment = seg ∧ s = mkSignificantDrop rd := by
  rw [segmentBlock] at h
  obtain ⟨rd, hrd, rfl⟩ := List.mem_map.mp h
  have h2 := List.mem_of_mem_take hrd
  rw [List.mem_insertionSort] at h2
  have h3 := List.mem_filter.mp h2
  refine ⟨rd, h3.1, ?_, rfl⟩
  simpa using h3.2

theorem segmentBlock_segment {sig : List RawDrop} {seg : Segment}
    {s : SignificantDrop} (h : s ∈ segmentBlock sig seg) : s.segment = seg := by
  obtain ⟨rd, _, hseg, rfl⟩ := mem_segmentBlock h
  simpa [mkSignificantDrop] using hseg

theorem countP_segmentBlock_le (sig : List RawDrop) (seg : Segment) :
    (segmentBlock sig seg).countP (fun s => s.segment = seg) ≤ 3 := by
  refine le_trans ?_ (segmentBlock_length_le sig seg)
  exact List.countP_le_length _

theorem countP_segmentBlock_ne (sig : List RawDrop) {s1 s2 : Segment}
    (h : s1 ≠ s2) :
    (segmentBlock sig s1).countP (fun s => s.segment = s2) = 0 := by
  rw [List.countP_eq_zero]
  intro a ha
  have hseg := segmentBlock_segment ha
  simp [hseg, h]

theorem countP_selectedDrops_le (sig : List RawDrop) (seg : Segment) :
    (selectedDrops sig).countP (fun s => s.segment = seg) ≤ 3 := by
  rw [selectedDrops]
  simp only [List.countP_append]
  cases seg with
  | early =>
    rw [countP_segmentBlock_ne sig (show Segment.midEarly ≠ Segment.early from by decide),
      countP_segmentBlock_ne sig (show Segment.midLate ≠ Segment.early from by decide),
      countP_segmentBlock_ne sig (show Segment.late ≠ Segment.early from by decide)]
    simpa using countP_segmentBlock_le sig Segment.early
  | midEarly =>
    rw [countP_segmentBlock_ne sig (show Segment.early ≠ Segment.midEarly from by decide),
      countP_segmentBlock_ne sig (show Segment.midLate ≠ Segment.midEarly from by decide),
      countP_segmentBlock_ne sig (show Segment.late ≠ Segment.midEarly from by decide)]
    simpa using countP_segmentBlock_le sig Segment.midEarly
  | midLate =>
    rw [countP_segmentBlock_ne sig (show Segment.early ≠ Segment.midLate from by decide),
      countP_segmentBlock_ne sig (show Segment.midEarly ≠ Segment.midLate from by decide),
      countP_segmentBlock_ne sig (show Segment.late ≠ Segment.midLate from by decide)]
    simpa using countP_segmentBlock_le sig Segment.midLate
  | late =>
    rw [countP_segmentBlock_ne sig (show Segment.early ≠ Segment.late from by decide),
      countP_segmentBlock_ne sig (show Segment.midEarly ≠ Segment.late from by decide),
      countP_segmentBlock_ne sig (show Segment.midLate ≠ Segment.late from by decide)]
    simpa using countP_segmentBlock_le sig Segment.late

theorem selectedDrops_length_le (sig : List RawDrop) :
    (selectedDrops sig).length ≤ 12 := by
  rw [selectedDrops]
  simp only [List.length_append]
  have l1 := segmentBlock_length_le sig Segment.early
  have l2 := segmentBlock_length_le sig Segment.midEarly
  have l3 := segmentBlock_length_le sig Segment.midLate
  have l4 := segmentBlock_length_le sig Segment.late
  omega

theorem mem_selectedDrops {sig : List RawDrop} {s : SignificantDrop}
    (h : s ∈ selectedDrops sig) : ∃ rd ∈ sig, s = mkSignificantDrop rd := by
  rw [selectedDrops] at h
  simp only [List.mem_append] at h
  rcases h with ((h | h) | h) | h
  all_goals
    obtain ⟨rd, hrd, _, rfl⟩ := mem_segmentBlock h
  all_goals
    exact ⟨rd, hrd, rfl⟩

theorem mem_rawDrops {tv L : ℚ} :
    ∀ {pts : List DropOffPoint} {rd : RawDrop}, rd ∈ rawDrops tv L pts →
      ∃ b a, a.viewers < b.viewers ∧ rd = mkRawDrop tv L b a := by
  intro pts
  induction pts with
  | nil => intro rd h; simp [rawDrops] at h
  | cons b rest ih =>
    intro rd h
    cases rest with
    | nil => simp [rawDrops] at h
    | cons a rest2 =>
      rw [rawDrops] at h
      rcases List.mem_append.mp h with h1 | h2
      · split_ifs at h1 with hd
        · simp at h1
        · simp only [List.mem_singleton] at h1
          exact ⟨b, a, by linarith [not_le.mp hd], h1⟩
      · exact ih h2

theorem mem_findSignificantDrops {d : DropOffData} {s : SignificantDrop}
    (h : s ∈ findSignificantDrops d) :
    ∃ b a, a.viewers < b.viewers ∧
      s = mkSignificantDrop (mkRawDrop d.totalViewers
        ((d.points.getLastD default).second) b a) := by
  simp only [findSignificantDrops] at h
  split_ifs at h with h1 h2
  · simp at h
  · simp at h
  · rw [List.mem_insertionSort] at h
    obtain ⟨rd, hrd, rfl⟩ := mem_selectedDrops h
    have hmem := (List.mem_filter.mp hrd).1
    obtain ⟨b, a, hba, rfl⟩ := mem_rawDrops hmem
    exact ⟨b, a, hba, rfl⟩

/-- C3: the detector output is sorted ascending by second, contributes at
most three entries per segment, and hence has at most twelve entries. -/
theorem findSignificantDrops_sorted_capped :
    ∀ d : DropOffData,
      (findSignificantDrops d).Pairwise (fun a b => a.second ≤ b.second) ∧
      (∀ seg : Segment,
        (findSignificantDrops d).countP (fun s => s.segment = seg) ≤ 3) ∧
      (findSignificantDrops d).length ≤ 12 := by
  intro d
  simp only [findSignificantDrops]
  split_ifs with h1 h2
  · simp
  · simp
  · refine ⟨?_, ?_, ?_⟩
    · haveI : IsTotal SignificantDrop (fun a b => a.second ≤ b.second) :=
        ⟨fun a b => le_total a.second b.second⟩
      haveI : IsTrans SignificantDrop (fun a b => a.second ≤ b.second) :=
        ⟨fun a b c hab hbc => le_trans hab hbc⟩
      exact List.sorted_insertionSort _ _
    · intro seg
      rw [(List.perm_insertionSort _ _).countP_eq]
      exact countP_selectedDrops_le _ seg
    · rw [List.length_insertionSort]
      exact selectedDrops_length_le _

/-- C10: every reported drop records a strictly positive viewer loss. -/
theorem findSignificantDrops_positive_loss :
    ∀ (d : DropOffData) (s : SignificantDrop), s ∈ findSignificantDrops d →
      s.viewersAfter < s.viewersBefore := by
  intro d s h
  obtain ⟨b, a, hba, rfl⟩ := mem_findSignificantDrops h
  simpa [mkSignificantDrop, mkRawDrop] using hba

/-- Witness for C10 on the example scenario drop. -/
theorem findSignificantDrops_positive_loss_witness :
    exampleSignificantDrop.viewersAfter < exampleSignificantDrop.viewersBefore :=
  findSignificantDrops_positive_loss exampleDropOff exampleSignificantDrop
    (by rw [findSignificantDrops_exampleDropOff]; exact List.mem_singleton_self _)

theorem playRateRecs_metric {stats : VideoStats} {r : Recommendation}
    (h : r ∈ playRateRecs stats) : r.metric = "playRate" := by
  simp only [playRateRecs] at h
  split_ifs at h <;> simp_all [lowPlayRateRec, strongPlayRateRec]

theorem engagementRecs_metric {stats : VideoStats} {r : Recommendation}
    (h : r ∈ engagementRecs stats) : r.metric = "engagement" := by
  simp only [engagementRecs] at h
  split_ifs at h <;> simp_all [lowEngagementRec]

theorem interactionRecs_metric {stats : VideoStats} {r : Recommendation}
    (h : r ∈ interactionRecs stats) : r.metric = "engagement" := by
  simp only [interactionRecs] at h
  split_ifs at h <;> simp_all [startsNoStayRec]

theorem unmuteRecs_metric {stats : VideoStats} {r : Recommendation}
    (h : r ∈ unmuteRecs stats) : r.metric = "unmuteRate" := by
  simp only [unmuteRecs] at h
  split_ifs at h <;> simp_all [lowUnmuteRec]

theorem revenueRecs_metric {stats : VideoStats} {r : Recommendation}
    (h : r ∈ revenueRecs stats) : r.metric = "revenue" := by
  simp only [revenueRecs] at h
  split_ifs at h <;> simp_all [revenueRec]

theorem dropOffRecs_metric {drops : List SignificantDrop} {r : Recommendation}
    (h : r ∈ dropOffRecs drops) : r.metric = "dropOff" := by
  simp only [dropOffRecs, List.mem_map] at h
  obtain ⟨dd, _, rfl⟩ := h
  rfl

theorem conversionRecs_of_not {stats : VideoStats}
    (h1 : ¬ 0 < stats.conversionCount) (h2 : ¬ 0 < stats.conversionRate) :
    conversionRecs stats = [] := by
  simp only [conversionRecs]
  rw [if_neg (fun hor => hor.elim h1 h2)]

theorem no_conversion_metric {stats : VideoStats} {drops : List SignificantDrop}
    (h1 : ¬ 0 < stats.conversionCount) (h2 : ¬ 0 < stats.conversionRate) :
    ∀ r ∈ generateRecommendations stats drops, r.metric ≠ "conversionRate" := by
  intro r hr
  simp only [generateRecommendations] at hr
  split_ifs at hr with hlen
  · simp only [List.mem_singleton] at hr
    subst hr
    decide
  · simp only [baseRecommendations, List.mem_append] at hr
    rcases hr with ((((((hr | hr) | hr) | hr) | hr) | hr) | hr)
    · rw [playRateRecs_metric hr]; decide
    · rw [engagementRecs_metric hr]; decide
    · rw [interactionRecs_metric hr]; decide
    · rw [unmuteRecs_metric hr]; decide
    · rw [conversionRecs_of_not h1 h2] at hr; simp at hr
    · rw [revenueRecs_metric hr]; decide
    · rw [dropOffRecs_metric hr]; decide

/-- C5: with no conversions recorded (count and rate both zero, and more
generally neither positive) no conversion-rate recommendation is generated,
also through `analyzeVideo`. -/
theorem generateRecommendations_conversion_guard :
    ∀ (stats : VideoStats) (drops : List SignificantDrop),
      (stats.conversionCount = 0 → stats.conversionRate = 0 →
        ∀ r ∈ generateRecommendations stats drops, r.metric ≠ "conversionRate") ∧
      (¬ (0 < stats.conversionCount ∨ 0 < stats.conversionRate) →
        ∀ r ∈ generateRecommendations stats drops, r.metric ≠ "conversionRate") ∧
      (stats.conversionCount = 0 → stats.conversionRate = 0 →
        ∀ (video : Video) (dropOff : DropOffData),
          ∀ r ∈ (analyzeVideo video stats dropOff).recommendations,
            r.metric ≠ "conversionRate") := by
  intro stats drops
  refine ⟨?_, ?_, ?_⟩
  · intro hc hr
    exact no_conversion_metric (by rw [hc]; exact lt_irrefl 0)
      (by rw [hr]; exact lt_irrefl 0)
  · intro hor
    exact no_conversion_metric (fun h => hor (Or.inl h)) (fun h => hor (Or.inr h))
  · intro hc hr video dropOff
    simp only [analyzeVideo]
    exact no_conversion_metric (by rw [hc]; exact lt_irrefl 0)
      (by rw [hr]; exact lt_irrefl 0)

/-- Mid-range stats on which no recommendation rule fires. -/
def solidStats : VideoStats :=
  { playRate := 55/100, engagement := 3/10, unmuteRate := 3/10 }

theorem rateMetric_solidStats_playRate :
    rateMetric "playRate" solidStats.playRate = .good := by
  simp only [solidStats, rateMetric, thresholds_playRate]
  norm_num

theorem rateMetric_solidStats_engagement :
    rateMetric "engagement" solidStats.engagement = .average := by
  simp only [solidStats, rateMetric, thresholds_engagement]
  norm_num

theorem rateMetric_solidStats_unmuteRate :
    rateMetric "unmuteRate" solidStats.unmuteRate = .average := by
  simp only [solidStats, rateMetric, thresholds_unmuteRate]
  norm_num

theorem baseRecommendations_solidStats : baseRecommendations solidStats [] = [] := by
  have b1 : playRateRecs solidStats = [] := by
    simp only [playRateRecs, rateMetric_solidStats_playRate]
    rw [if_neg (by decide), if_neg (by decide)]
  have b2 : engagementRecs solidStats = [] := by
    simp only [engagementRecs, rateMetric_solidStats_engagement]
    rw [if_neg (by decide)]
  have b3 : interactionRecs solidStats = [] := by
    simp only [interactionRecs, rateMetric_solidStats_playRate,
      rateMetric_solidStats_engagement]
    rw [if_neg (by decide)]
  have b4 : unmuteRecs solidStats = [] := by
    simp only [unmuteRecs, rateMetric_solidStats_unmuteRate]
    rw [if_neg (by decide)]
  have b5 : conversionRecs solidStats = [] :=
    conversionRecs_of_not (by norm_num [solidStats]) (by norm_num [solidStats])
  have b6 : revenueRecs solidStats = [] := by
    simp only [revenueRecs]
    rw [if_neg (by norm_num [solidStats])]
  rw [baseRecommendations, b1, b2, b3, b4, b5, b6]
  rfl

theorem generateRecommendations_solidStats :
    generateRecommendations solidStats [] = [solidPerformanceRec] := by
  simp only [generateRecommendations, baseRecommendations_solidStats]
  rfl

/-- Witness for C5 on the solid-performance stats (conversion count and rate
both zero). -/
theorem generateRecommendations_conversion_guard_witness :
    solidPerformanceRec.metric ≠ "conversionRate" :=
  (generateRecommendations_conversion_guard solidStats []).1 rfl rfl
    solidPerformanceRec
    (by rw [generateRecommendations_solidStats]; exact List.mem_singleton_self _)

theorem generateRecommendations_ne_nil (stats : VideoStats)
    (drops : List SignificantDrop) : generateRecommendations stats drops ≠ [] := by
  simp only [generateRecommendations]
  split_ifs with h
  · simp
  · intro hnil
    exact h (by rw [hnil]; rfl)

/-- C6: the recommendation list is never empty; when no rule fires it is
exactly the single positive solid-performance fallback, and so the
recommendations of every `VideoAnalysis` are non-empty. -/
theorem generateRecommendations_nonempty :
    ∀ (stats : VideoStats) (drops : List SignificantDrop),
      generateRecommendations stats drops ≠ [] ∧
      (baseRecommendations stats drops = [] →
        generateRecommendations stats drops = [solidPerformanceRec]) ∧
      solidPerformanceRec.type = RecType.positive ∧
      solidPerformanceRec.title = "Solid Performance" ∧
      (∀ (video : Video) (dropOff : DropOffData),
        (analyzeVideo video stats dropOff).recommendations ≠ []) := by
  intro stats drops
  refine ⟨generateRecommendations_ne_nil stats drops, ?_, rfl, rfl, ?_⟩
  · intro hbase
    simp only [generateRecommendations]
    rw [if_pos (by rw [hbase]; rfl)]
  · intro video dropOff
    simp only [analyzeVideo]
    exact generateRecommendations_ne_nil _ _

/-- Witness for C6 on the solid-performance stats. -/
theorem generateRecommendations_nonempty_witness :
    generateRecommendations solidStats [] = [solidPerformanceRec] :=
  (generateRecommendations_nonempty solidStats []).2.1 baseRecommendations_solidStats

/-- C7: an empty stats list yields the all-zero, all-empty portfolio summary
without any division. -/
theorem analyzePortfolio_empty :
    ∀ videos : List Video,
      analyzePortfolio videos [] =
        { totalVideos := 0, totalPlays := 0, totalConversions := 0,
          totalRevenue := 0, avgEngagement := 0, avgConversionRate := 0,
          avgPlayRate := 0, avgUnmuteRate := 0, topPerformers := [],
          worstPerformers := [], portfolioRecommendations := [] } := by
  intro videos
  rfl

/-- C9: every ratio of the core is zero-denominator guarded: checked division
(`none` standing for the non-finite value an unguarded zero denominator would
produce) agrees with the implementation everywhere, the drop ratios are 0
when their guard triggers, and the portfolio averages only ever divide by a
non-zero count. -/
theorem division_guards :
    (∀ a : ℚ, jsDiv a 0 = none) ∧
    (∀ drop bv : ℚ, relDropChecked drop bv = some (relDropOf drop bv)) ∧
    (∀ drop tv : ℚ, dropPctChecked drop tv = some (dropPctOf drop tv)) ∧
    (∀ l : List RawDrop, avgRelChecked l = some (avgRelOf l)) ∧
    (∀ (d : DropOffData) (s : SignificantDrop), s ∈ findSignificantDrops d →
      (d.totalViewers = 0 → s.dropPercentage = 0) ∧
      (s.viewersBefore = 0 → s.relativeDrop = 0)) ∧
    (∀ (videos : List Video) (allStats : List VideoStats), allStats ≠ [] →
      jsDiv (allStats.foldl (fun s v => s + v.engagement) 0) allStats.length
          = some ((analyzePortfolio videos allStats).avgEngagement) ∧
      jsDiv (allStats.foldl (fun s v => s + v.conversionRate) 0) allStats.length
          = some ((analyzePortfolio videos allStats).avgConversionRate) ∧
      jsDiv (allStats.foldl (fun s v => s + v.playRate) 0) allStats.length
          = some ((analyzePortfolio videos allStats).avgPlayRate) ∧
      jsDiv (allStats.foldl (fun s v => s + v.unmuteRate) 0) allStats.length
          = some ((analyzePortfolio videos allStats).avgUnmuteRate)) := by
  refine ⟨?_, ?_, ?_, ?_, ?_, ?_⟩
  · intro a; simp [jsDiv]
  · intro drop bv
    rw [relDropChecked, relDropOf]
    split_ifs with h
    · simp [jsDiv, (ne_of_gt h)]
    · rfl
  · intro drop tv
    rw [dropPctChecked, dropPctOf]
    split_ifs with h
    · simp [jsDiv, (ne_of_gt h)]
    · rfl
  · intro l
    rw [avgRelChecked, avgRelOf]
    split_ifs with h
    · have hne : ((l.length : ℚ)) ≠ 0 := by
        exact_mod_cast Nat.pos_iff_ne_zero.mp h
      simp [jsDiv, hne]
    · rfl
  · intro d s h
    obtain ⟨b, a, hba, rfl⟩ := mem_findSignificantDrops h
    constructor
    · intro htv
      show round1 (dropPctOf (b.viewers - a.viewers) d.totalViewers) = 0
      rw [dropPctOf, htv, if_neg (lt_irrefl 0), round1_zero]
    · intro hbv
      have hb : b.viewers = 0 := hbv
      show round1 (relDropOf (b.viewers - a.viewers) b.viewers) = 0
      rw [relDropOf, hb, if_neg (lt_irrefl 0), round1_zero]
  · intro videos allStats h
    have hn : allStats.length ≠ 0 := by
      simpa [List.length_eq_zero] using h
    have hnq : ((allStats.length : ℚ)) ≠ 0 := by exact_mod_cast hn
    simp only [analyzePortfolio, if_neg hn]
    refine ⟨?_, ?_, ?_, ?_⟩
    all_goals rw [jsDiv, if_neg hnq]

/-- Witness for C9 on the example drop and a one-element portfolio. -/
theorem division_guards_witness :
    ((exampleDropOff.totalViewers = 0 → exampleSignificantDrop.dropPercentage = 0) ∧
      (exampleSignificantDrop.viewersBefore = 0 →
        exampleSignificantDrop.relativeDrop = 0)) ∧
    jsDiv ([excellentStats].foldl (fun s v => s + v.engagement) 0)
        ([excellentStats].length)
      = some ((analyzePortfolio [] [excellentStats]).avgEngagement) :=
  ⟨division_guards.2.2.2.2.1 exampleDropOff exampleSignificantDrop
      (by rw [findSignificantDrops_exampleDropOff]; exact List.mem_singleton_self _),
    (division_guards.2.2.2.2.2 [] [excellentStats] (by simp)).1⟩

end Vidalytics

